import Mathlib

set_option maxRecDepth 100000

/-!
Shallow embedding of the arseeding-rust client library (src/everpay_types.rs,
src/everpay.rs, src/everpay_client.rs, src/client.rs, src/types.rs) and proofs
about its transaction-signing and fee-settlement protocol.

Machine integers (`u64`) are modelled as `Nat` with explicit range checks where
the source checks them (string parsing); Rust `String` is modelled as Lean
`String`, with `to_lowercase`/`to_uppercase` modelled at the ASCII level (the
case mapping Lean's `Char.toLower`/`Char.toUpper` implement); `HashMap` is
modelled as an association list with insert-replaces-existing semantics, which
matches `HashMap::insert`; fallible operations return `Except`, and operations
that can panic (`HashMap` indexing, `Option::unwrap`) return a dedicated result
type with an explicit `panicked` constructor.
-/

/-- Model of Rust `str::to_lowercase`, at the ASCII level: it agrees with
Rust's Unicode mapping exactly on ASCII strings, and leaves non-ASCII
characters unmapped where Rust would lowercase them. Theorems that depend on
a string's casing behaviour therefore restrict themselves to ASCII strings
(`asciiStr`); elsewhere this function only appears inside lookup-outcome
hypotheses, where no casing identity is used. -/
def toLowercase (s : String) : String := ⟨s.data.map Char.toLower⟩

/-- Model of Rust `str::to_uppercase`, at the ASCII level: it agrees with
Rust's Unicode mapping exactly on ASCII strings. Outside ASCII the two
differ — Rust maps `ß` to the two-character `SS`, for example — so casing
theorems stated with this function carry an `asciiStr` hypothesis. -/
def toUppercase (s : String) : String := ⟨s.data.map Char.toUpper⟩

/-- A string of ASCII characters only: the domain on which `toLowercase` and
`toUppercase` coincide with Rust's `str::to_lowercase` /
`str::to_uppercase`. -/
def asciiStr (s : String) : Prop := ∀ c ∈ s.data, c.toNat < 128

/-- Association-list lookup, modelling `HashMap::get` / `Index` access. -/
def lookupAL {α : Type} : List (String × α) → String → Option α
  | [], _ => none
  | (k, v) :: rest, key => if k = key then some v else lookupAL rest key

/-- Association-list insert with replacement, modelling `HashMap::insert`. -/
def insertAL {α : Type} : List (String × α) → String → α → List (String × α)
  | [], key, v => [(key, v)]
  | (k, w) :: rest, key, v =>
      if k = key then (key, v) :: rest else (k, w) :: insertAL rest key v

/-- Model of Rust `str::parse::<u64>()`: optional leading `+`, then one or
more ASCII digits, value at most `2^64 - 1`; anything else fails. -/
def parseU64 (s : String) : Option Nat :=
  let body := match s.data with
    | '+' :: rest => rest
    | cs => cs
  if body.isEmpty then none
  else if body.all Char.isDigit then
    let n := body.foldl (fun acc c => acc * 10 + (c.toNat - 48)) 0
    if n < 2 ^ 64 then some n else none
  else none

/-- `src/types.rs` — `ASError`. Payloads of wrapped foreign errors
(`reqwest::Error`, `std::io::Error`, `arloader::error::Error`) are modelled as
strings. The `TokenError` variant is the one constructed in
`src/everpay.rs` (`Everpay::send_transfer`). -/
inductive ASError where
  | ArgumentError (arg : String)
  | URLError (url : String)
  | ReqwestError (e : String)
  | IOError (e : String)
  | APIError (e : String)
  | ArLoaderError (e : String)
  | TokenError (arg : String)
deriving DecidableEq, Repr

/-- `src/everpay_types.rs` — `TX_VERSION_V1`. -/
def TX_VERSION_V1 : String := "v1"

/-- `src/everpay_types.rs` — `TX_ACTION_TRANSFER`. -/
def TX_ACTION_TRANSFER : String := "transfer"

/-- `src/everpay_types.rs` — `CrossChainInfoListDetails`. -/
structure CrossChainInfoListDetails where
  target_chain_id : String
  target_chain_type : String
  target_decimals : Int
  target_token_id : String
deriving DecidableEq, Repr

/-- `src/everpay_types.rs` — `TokenList` (one token descriptor). -/
structure TokenList where
  tag : String
  id : String
  symbol : String
  decimals : Int
  total_supply : String
  chain_type : String
  chain_id : String
  burn_fees : List (String × String)
  transfer_fee : String
  bundle_fee : String
  holder_num : Int
  cross_chain_info_list : List (String × CrossChainInfoListDetails)
deriving DecidableEq, Repr

/-- `src/everpay_types.rs` — `TokenInfo` (the `GET /info` response). -/
structure TokenInfo where
  is_synced : Bool
  is_closed : Bool
  balance_root_hash : String
  root_hash : String
  ever_root_hash : String
  owner : String
  eth_chain_id : String
  fee_recipient : String
  eth_locker : String
  ar_locker : String
  lockers : List (String × String)
  token_list : List TokenList
deriving DecidableEq, Repr

/-- `src/everpay_types.rs` — `Transaction`. -/
structure Transaction where
  token_symbol : String
  action : String
  «from» : String
  «to» : String
  amount : String
  fee : String
  fee_recipient : String
  nonce : String
  token_id : String
  chain_type : String
  chain_id : String
  data : String
  version : String
  sig : String
deriving DecidableEq, Repr

/-- `src/everpay_types.rs` — `Transaction::sig_msg`: the canonical signing
message, the newline-joined field-labelled serialization of every field
except `sig`, in the fixed order of the `format!` call. -/
def Transaction.sig_msg (t : Transaction) : String :=
  "tokenSymbol:" ++ t.token_symbol ++
  "\naction:" ++ t.action ++
  "\nfrom:" ++ t.«from» ++
  "\nto:" ++ t.«to» ++
  "\namount:" ++ t.amount ++
  "\nfee:" ++ t.fee ++
  "\nfeeRecipient:" ++ t.fee_recipient ++
  "\nnonce:" ++ t.nonce ++
  "\ntokenID:" ++ t.token_id ++
  "\nchainType:" ++ t.chain_type ++
  "\nchainID:" ++ t.chain_id ++
  "\ndata:" ++ t.data ++
  "\nversion:" ++ t.version

/-- `src/everpay_types.rs` — `StatusRes`. -/
structure StatusRes where
  status : String
deriving DecidableEq, Repr

/-- A sample transaction used to exercise the embedding on concrete input. -/
def txSample : Transaction where
  token_symbol := "AR"
  action := "transfer"
  «from» := "f"
  «to» := "t"
  amount := "1"
  fee := "0"
  fee_recipient := "r"
  nonce := "9"
  token_id := "i"
  chain_type := "c"
  chain_id := "0"
  data := "d"
  version := "v1"
  sig := "s"

/-- The registry fields of `src/everpay.rs` — `struct Everpay` (the `client`
and `signer` fields are passed separately as function arguments). -/
structure EverpayState where
  tokens : List (String × TokenList)
  symbol_to_tag : List (String × String)
  fee_recipient : String
deriving DecidableEq, Repr

/-- The map-building loop of `Everpay::update_info`: for each token of the
fetched list, insert `tag -> token` into `tokens` and
`lowercase symbol -> tag` into `symbol_to_tag`. -/
def buildMaps (ts : List TokenList) :
    List (String × TokenList) × List (String × String) :=
  ts.foldl
    (fun acc t => (insertAL acc.1 t.tag t, insertAL acc.2 (toLowercase t.symbol) t.tag))
    ([], [])

/-- `src/everpay.rs` — `Everpay::update_info`. The result of
`self.client.info()` is passed in as `infoRes`; the `?` operator returns the
error before any field of `self` is touched, and on success all three registry
fields are replaced with freshly built values. -/
def update_info (st : EverpayState) (infoRes : Except ASError TokenInfo) :
    Except ASError Unit × EverpayState :=
  match infoRes with
  | .error e => (.error e, st)
  | .ok token_info =>
      let maps := buildMaps token_info.token_list
      (.ok (), { tokens := maps.1, symbol_to_tag := maps.2,
                 fee_recipient := token_info.fee_recipient })

/-- The pure model of a `dyn Signer` (src/everpay_types.rs): `sign` and
`wallet_address` as fallible functions. -/
structure SignerModel where
  sign : String → Except ASError String
  wallet_address : Except ASError String

/-- Result of a Rust call that can return `Ok`, return `Err`, or panic
(`HashMap` indexing in `Everpay::transfer`, `unwrap` in
`ASClient::send_and_pay`). -/
inductive PanickyResult (α : Type) where
  | ok (a : α)
  | err (e : ASError)
  | panicked (msg : String)
deriving DecidableEq, Repr

/-- Lift an ordinary `Result` into `PanickyResult`. -/
def liftE {α : Type} : Except ASError α → PanickyResult α
  | .ok a => .ok a
  | .error e => .err e

/-- The transaction record built by `Everpay::send_action_raw` before
signing (the struct literal at src/everpay.rs lines 101-116, with `sig`
still empty). `nonce` is passed in because the source reads the wall
clock (`get_nonce`). -/
def raw_tx (wallet nonce : String) (token_symbol action : String) (fee : Nat)
    (fee_recipient token_id chain_type chain_id receiver : String)
    (amount : Nat) (data : String) : Transaction where
  token_symbol := token_symbol
  action := action
  «from» := wallet
  «to» := receiver
  amount := toString amount
  fee := toString fee
  fee_recipient := fee_recipient
  nonce := nonce
  token_id := token_id
  chain_type := chain_type
  chain_id := chain_id
  data := data
  version := TX_VERSION_V1
  sig := ""

/-- `src/everpay.rs` — `Everpay::send_action_raw`: build the record, sign its
canonical message, then submit it. Returns the submission result together
with the list of transactions submitted to the settlement client during the
call (so that submission behaviour is part of the observable result). -/
def send_action_raw (signer : SignerModel)
    (submit : Transaction → Except ASError StatusRes) (nonce : String)
    (token_symbol action : String) (fee : Nat)
    (fee_recipient token_id chain_type chain_id receiver : String)
    (amount : Nat) (data : String) :
    Except ASError StatusRes × List Transaction :=
  match signer.wallet_address with
  | .error e => (.error e, [])
  | .ok wallet =>
      let tx := raw_tx wallet nonce token_symbol action fee fee_recipient
        token_id chain_type chain_id receiver amount data
      match signer.sign tx.sig_msg with
      | .error e => (.error e, [])
      | .ok s =>
          let tx := { tx with sig := s }
          (submit tx, [tx])

/-- The transaction record built by `Everpay::send_transfer` before signing
(the struct literal at src/everpay.rs lines 151-166). -/
def transfer_tx (st : EverpayState) (token_info : TokenList)
    (wallet nonce receiver : String) (amount : Nat) (data : String) :
    Transaction where
  token_symbol := token_info.symbol
  action := TX_ACTION_TRANSFER
  «from» := wallet
  «to» := receiver
  amount := toString amount
  fee := token_info.transfer_fee
  fee_recipient := st.fee_recipient
  nonce := nonce
  token_id := token_info.id
  chain_type := token_info.chain_type
  chain_id := token_info.chain_id
  data := data
  version := TX_VERSION_V1
  sig := ""

/-- `src/everpay.rs` — `Everpay::send_transfer`: look the tag up in `tokens`
(returning `TokenError` with the tag when absent), build a `transfer`-action
record, sign its canonical message, submit it. -/
def send_transfer (st : EverpayState) (signer : SignerModel)
    (submit : Transaction → Except ASError StatusRes) (nonce : String)
    (token_tag receiver : String) (amount : Nat) (data : String) :
    Except ASError StatusRes × List Transaction :=
  match lookupAL st.tokens token_tag with
  | none => (.error (ASError.TokenError token_tag), [])
  | some token_info =>
      match signer.wallet_address with
      | .error e => (.error e, [])
      | .ok wallet =>
          let tx := transfer_tx st token_info wallet nonce receiver amount data
          match signer.sign tx.sig_msg with
          | .error e => (.error e, [])
          | .ok s =>
              let tx := { tx with sig := s }
              (submit tx, [tx])

/-- `src/everpay.rs` — `Everpay::transfer`: index `symbol_to_tag` with the
lowercased symbol — `self.symbol_to_tag[&symbol.to_lowercase()]` panics when
the key is absent — then delegate to `send_transfer`. -/
def transfer (st : EverpayState) (signer : SignerModel)
    (submit : Transaction → Except ASError StatusRes) (nonce : String)
    (symbol receiver : String) (amount : Nat) (data : String) :
    PanickyResult StatusRes × List Transaction :=
  match lookupAL st.symbol_to_tag (toLowercase symbol) with
  | none => (.panicked "index out of bounds: key not found in symbol_to_tag", [])
  | some tag =>
      match send_transfer st signer submit nonce tag receiver amount data with
      | (r, txs) => (liftE r, txs)

/-- The symbol-resolution path through the registry, as `Everpay::transfer`
performs it: lowercased-symbol lookup in `symbol_to_tag` followed by the tag
lookup in `tokens` done by `send_transfer`. -/
def resolve (st : EverpayState) (symbol : String) : Option TokenList :=
  match lookupAL st.symbol_to_tag (toLowercase symbol) with
  | none => none
  | some tag => lookupAL st.tokens tag

/-- `src/types.rs` — `APIErrorRes`, the standard error envelope. -/
structure APIErrorRes where
  error : String
deriving DecidableEq, Repr

/-- `src/types.rs` — `BundlerRes`. -/
structure BundlerRes where
  bundler : String
deriving DecidableEq, Repr

/-- `src/types.rs` — `ItemSubmissionRes` (the bundler order descriptor). -/
structure ItemSubmissionRes where
  item_id : String
  bundler : String
  currency : String
  decimals : Int
  fee : String
  payment_expired_time : Int
  expected_block : Int
deriving DecidableEq, Repr

/-- `src/types.rs` — `SubmitNativeRes`. -/
structure SubmitNativeRes where
  item_id : String
deriving DecidableEq, Repr

/-- `src/types.rs` — `FeeRes`. -/
structure FeeRes where
  currency : String
  decimals : Int
  final_fee : String
deriving DecidableEq, Repr

/-- `src/types.rs` — `OrderRes`. The two `DateTime<Utc>` fields are modelled
as their raw timestamp strings (claims do not depend on date parsing). -/
structure OrderRes where
  id : Nat
  created_at : Option String
  updated_at : Option String
  item_id : String
  signer : String
  sign_type : Nat
  size : Int
  currency : String
  decimals : Nat
  fee : String
  payment_expired_time : Int
  expected_block : Int
  payment_status : String
  payment_id : String
  on_chain_status : String
deriving DecidableEq, Repr

/-- `src/types.rs` — `Tag`. -/
structure RTag where
  name : String
  value : String
deriving DecidableEq, Repr

/-- `src/types.rs` — `ItemMetaRes`. -/
structure ItemMetaRes where
  signature_type : Int
  signature : String
  owner : String
  target : String
  anchor : String
  tags : List RTag
  data : String
  id : String
deriving DecidableEq, Repr

/-- `src/everpay_types.rs` — `Balance`. -/
structure Balance where
  tag : String
  amount : String
  decimals : Int
deriving DecidableEq, Repr

/-- `src/everpay_types.rs` — `Balances`. -/
structure Balances where
  accid : String
  balances : List Balance
deriving DecidableEq, Repr

/-- JSON string escaping as `serde_json` performs it: `"` and `\` are
backslash-escaped, the control characters with short forms use them, any
other control character below U+0020 becomes `\u00XX`, and everything else
passes through unchanged. -/
def jsonEscapeChar (c : Char) : String :=
  if c = '"' then "\\\""
  else if c = '\\' then "\\\\"
  else if c = '\x08' then "\\b"
  else if c = '\x09' then "\\t"
  else if c = '\x0a' then "\\n"
  else if c = '\x0c' then "\\f"
  else if c = '\x0d' then "\\r"
  else if c.toNat < 32 then
    "\\u00" ++ String.singleton (Nat.digitChar (c.toNat / 16)) ++
      String.singleton (Nat.digitChar (c.toNat % 16))
  else String.singleton c

/-- JSON escaping of a whole string, as `serde_json` serializes it. -/
def jsonEscape (s : String) : String :=
  s.data.foldl (fun acc c => acc ++ jsonEscapeChar c) ""

/-- `serde_json::to_string` of the `PayTxData` struct built in
`ASClient::send_and_pay`: field names are camelCased by the serde rename and
serialized in declaration order, with the single item id in `itemIds`. -/
def payTxDataJson (item_id : String) : String :=
  "\x7b\"appName\":\"arseeding\",\"action\":\"payment\",\"itemIds\":[\"" ++
    jsonEscape item_id ++ "\"]\x7d"

/-- `src/client.rs` — `ASClient::send_and_pay`. The bundler submission
(`bundle_and_submit`, a network call) is passed in as its result `bundleRes`;
the everpay registry state, signer, settlement submission and nonce are the
same parameters `transfer` takes. The second component records the
settlement transactions submitted during the call. -/
def send_and_pay (bundleRes : Except ASError ItemSubmissionRes)
    (st : EverpayState) (signer : SignerModel)
    (submit : Transaction → Except ASError StatusRes) (nonce : String) :
    PanickyResult String × List Transaction :=
  match bundleRes with
  | .error e => (.err e, [])
  | .ok order =>
      let order_id := order.item_id
      match parseU64 order.fee with
      | none => (.panicked "called unwrap on an Err value: ParseIntError", [])
      | some fee_int =>
          let data := payTxDataJson order_id
          match transfer st signer submit nonce order.currency order.bundler
              fee_int data with
          | (.panicked m, txs) => (.panicked m, txs)
          | (.err e, txs) => (.err e, txs)
          | (.ok _, txs) => (.ok order_id, txs)

/-- An HTTP request as the clients assemble one: method, URL, headers, body
bytes. -/
structure HttpRequest where
  method : String
  url : String
  headers : List (String × String)
  body : List Nat
deriving DecidableEq, Repr

/-- `src/client.rs` — the request built by `ASClient::submit_item` (lines
110-133): the URL starts as the relative string `"bundle/tx"` and is only
replaced by `base ++ "bundle/tx/" ++ currency` when the currency is
non-empty; the body is the raw item bytes with `Content-Type:
application/octet-stream`, and `X-API-KEY` is attached exactly when the API
key is non-empty. -/
def submit_item_request (base : String) (data : List Nat)
    (currency api_key : String) : HttpRequest :=
  let url := if currency.length > 0 then base ++ "bundle/tx/" ++ currency
             else "bundle/tx"
  let headers := [("Content-Type", "application/octet-stream")]
  let headers := if api_key.length > 0 then headers ++ [("X-API-KEY", api_key)]
                 else headers
  { method := "POST", url := url, headers := headers, body := data }

/-- One HTTP response as a client observes it: the status code plus the two
possible JSON decodings the code may attempt on the body (`res.json::<T>()`
and `res.json::<APIErrorRes>()`), each of which can itself fail (a
`reqwest::Error`, converted by `?` into `ASError::ReqwestError`). -/
structure ResponseModel (α : Type) where
  status : Nat
  payload : Except String α
  errorEnvelope : Except String APIErrorRes

/-- The response handling every endpoint of both clients performs:
`match res.status() { StatusCode::OK => Ok(res.json::<T>()?), _ =>
Err(ASError::APIError { e: res.json::<APIErrorRes>()?.error }) }`. -/
def handleResponse {α : Type} (res : ResponseModel α) : Except ASError α :=
  if res.status = 200 then
    match res.payload with
    | .ok v => .ok v
    | .error e => .error (ASError.ReqwestError e)
  else
    match res.errorEnvelope with
    | .ok env => .error (ASError.APIError env.error)
    | .error e => .error (ASError.ReqwestError e)

/-- `ASClient::get_bundler` response handling. -/
def get_bundler_handle (res : ResponseModel BundlerRes) : Except ASError BundlerRes :=
  handleResponse res

/-- `ASClient::submit_item` response handling. -/
def submit_item_handle (res : ResponseModel ItemSubmissionRes) :
    Except ASError ItemSubmissionRes :=
  handleResponse res

/-- `ASClient::submit_native_data` response handling. -/
def submit_native_data_handle (res : ResponseModel SubmitNativeRes) :
    Except ASError SubmitNativeRes :=
  handleResponse res

/-- `ASClient::get_bundle_fee` response handling. -/
def get_bundle_fee_handle (res : ResponseModel FeeRes) : Except ASError FeeRes :=
  handleResponse res

/-- `ASClient::get_bundler_orders` response handling. -/
def get_bundler_orders_handle (res : ResponseModel (List OrderRes)) :
    Except ASError (List OrderRes) :=
  handleResponse res

/-- `ASClient::get_item_meta` response handling. -/
def get_item_meta_handle (res : ResponseModel ItemMetaRes) :
    Except ASError ItemMetaRes :=
  handleResponse res

/-- `ASClient::get_items_by_ar_id` response handling. -/
def get_items_by_ar_id_handle (res : ResponseModel (List String)) :
    Except ASError (List String) :=
  handleResponse res

/-- `EverpayClient::info` response handling. -/
def info_handle (res : ResponseModel TokenInfo) : Except ASError TokenInfo :=
  handleResponse res

/-- `EverpayClient::balances` response handling. -/
def balances_handle (res : ResponseModel Balances) : Except ASError Balances :=
  handleResponse res

/-- `EverpayClient::submit_tx` response handling. -/
def submit_tx_handle (res : ResponseModel StatusRes) : Except ASError StatusRes :=
  handleResponse res

/-- An empty registry state, as `Everpay::new` starts with before
`update_info`. -/
def emptyState : EverpayState where
  tokens := []
  symbol_to_tag := []
  fee_recipient := ""

/-- Concrete token descriptor fixture (symbol `AR`). -/
def tokenAR : TokenList where
  tag := "ar_tag"
  id := "ar_id"
  symbol := "AR"
  decimals := 12
  total_supply := "0"
  chain_type := "arweave"
  chain_id := "0"
  burn_fees := []
  transfer_fee := "1000"
  bundle_fee := "0"
  holder_num := 0
  cross_chain_info_list := []

/-- Concrete token descriptor fixture (symbol `USDC`). -/
def tokenUSDC : TokenList where
  tag := "usdc_tag"
  id := "usdc_id"
  symbol := "USDC"
  decimals := 6
  total_supply := "0"
  chain_type := "ethereum"
  chain_id := "1"
  burn_fees := []
  transfer_fee := "500"
  bundle_fee := "0"
  holder_num := 0
  cross_chain_info_list := []

/-- A populated registry fixture holding `tokenAR` and `tokenUSDC`. -/
def stSample : EverpayState where
  tokens := [("ar_tag", tokenAR), ("usdc_tag", tokenUSDC)]
  symbol_to_tag := [("ar", "ar_tag"), ("usdc", "usdc_tag")]
  fee_recipient := "FEES"

/-- A signer model that always succeeds. -/
def signerOk : SignerModel where
  sign := fun m => .ok ("sig:" ++ m)
  wallet_address := .ok "WALLET"

/-- A settlement submission that always succeeds. -/
def submitOk : Transaction → Except ASError StatusRes :=
  fun _ => .ok { status := "ok" }

/-- A settlement submission that always fails with an API error. -/
def submitErr : Transaction → Except ASError StatusRes :=
  fun _ => .error (ASError.APIError "tx verification failed")

/-- A bundler submission result fixture with a parseable fee. -/
def orderSample : ItemSubmissionRes where
  item_id := "X"
  bundler := "B"
  currency := "usdc"
  decimals := 6
  fee := "1000"
  payment_expired_time := 0
  expected_block := 0

/-- A bundler submission result fixture whose fee does not parse as `u64`. -/
def orderBadFee : ItemSubmissionRes where
  item_id := "Y"
  bundler := "B"
  currency := "usdc"
  decimals := 6
  fee := "12.5"
  payment_expired_time := 0
  expected_block := 0

/-- A transaction whose `token_symbol` field embeds a newline and a label,
colliding with `txColB` in the canonical message. -/
def txColA : Transaction where
  token_symbol := "S\naction:a"
  action := "b"
  «from» := ""
  «to» := ""
  amount := ""
  fee := ""
  fee_recipient := ""
  nonce := ""
  token_id := ""
  chain_type := ""
  chain_id := ""
  data := ""
  version := ""
  sig := ""

/-- A transaction differing from `txColA` in `token_symbol` and `action`,
with the same canonical message. -/
def txColB : Transaction where
  token_symbol := "S"
  action := "a\naction:b"
  «from» := ""
  «to» := ""
  amount := ""
  fee := ""
  fee_recipient := ""
  nonce := ""
  token_id := ""
  chain_type := ""
  chain_id := ""
  data := ""
  version := ""
  sig := ""

/-- Token descriptor with uppercase symbol `X`, tag `a_tag`. -/
def tokenUpperX : TokenList where
  tag := "a_tag"
  id := "a_id"
  symbol := "X"
  decimals := 1
  total_supply := "0"
  chain_type := "arweave"
  chain_id := "0"
  burn_fees := []
  transfer_fee := "1"
  bundle_fee := "0"
  holder_num := 0
  cross_chain_info_list := []

/-- Token descriptor with the same lowercased symbol as `tokenUpperX` but a
different tag. -/
def tokenLowerX : TokenList where
  tag := "b_tag"
  id := "b_id"
  symbol := "x"
  decimals := 1
  total_supply := "0"
  chain_type := "ethereum"
  chain_id := "1"
  burn_fees := []
  transfer_fee := "2"
  bundle_fee := "0"
  holder_num := 0
  cross_chain_info_list := []

/-- A `GET /info` response whose token list has two tokens with colliding
lowercased symbols. -/
def tokenInfoDup : TokenInfo where
  is_synced := true
  is_closed := false
  balance_root_hash := ""
  root_hash := ""
  ever_root_hash := ""
  owner := ""
  eth_chain_id := "1"
  fee_recipient := "FEES"
  eth_locker := ""
  ar_locker := ""
  lockers := []
  token_list := [tokenUpperX, tokenLowerX]

/-- The registry obtained by refreshing from `tokenInfoDup`. -/
def stDup : EverpayState := (update_info emptyState (.ok tokenInfoDup)).2


/-- The raw-path record built in the `send_action_raw` witness scenario. -/
def rawTxW : Transaction :=
  raw_tx "WALLET" "1" "AR" "transfer" 0 "FR" "TID" "ct" "cid" "RCV" 5 "d"

/-- The transfer-path record built in the `send_transfer` witness scenario. -/
def transferTxW : Transaction :=
  transfer_tx stSample tokenUSDC "WALLET" "1" "RCV" 5 "d"

/-- A `GET /info` response with two tokens with distinct tags and distinct
lowercased symbols. -/
def tokenInfoSample : TokenInfo where
  is_synced := true
  is_closed := false
  balance_root_hash := ""
  root_hash := ""
  ever_root_hash := ""
  owner := ""
  eth_chain_id := "1"
  fee_recipient := "FEES"
  eth_locker := ""
  ar_locker := ""
  lockers := []
  token_list := [tokenAR, tokenUSDC]

/-- A string containing no newline character (the separator `sig_msg` joins
fields with). -/
def nlFree (s : String) : Prop := '\n' ∉ s.data

/-- All thirteen signed fields of a transaction are newline-free. -/
def nlFreeTx (t : Transaction) : Prop :=
  nlFree t.token_symbol ∧ nlFree t.action ∧ nlFree t.«from» ∧ nlFree t.«to» ∧
  nlFree t.amount ∧ nlFree t.fee ∧ nlFree t.fee_recipient ∧ nlFree t.nonce ∧
  nlFree t.token_id ∧ nlFree t.chain_type ∧ nlFree t.chain_id ∧
  nlFree t.data ∧ nlFree t.version

/-- Two transactions agree on all thirteen fields `sig_msg` serializes
(every field except `sig`). -/
def sameSigFields (t1 t2 : Transaction) : Prop :=
  t1.token_symbol = t2.token_symbol ∧ t1.action = t2.action ∧
  t1.«from» = t2.«from» ∧ t1.«to» = t2.«to» ∧ t1.amount = t2.amount ∧
  t1.fee = t2.fee ∧ t1.fee_recipient = t2.fee_recipient ∧
  t1.nonce = t2.nonce ∧ t1.token_id = t2.token_id ∧
  t1.chain_type = t2.chain_type ∧ t1.chain_id = t2.chain_id ∧
  t1.data = t2.data ∧ t1.version = t2.version

/-- C2: for every symbol whose lowercased form has no entry in
`symbol_to_tag`, `Everpay::transfer` does not return an error value at all —
the `HashMap` index `self.symbol_to_tag[&symbol.to_lowercase()]` panics, and
no transaction is submitted. (The registry, taken by `&self`, is untouched.) -/
theorem transfer_unknown_symbol_panics (st : EverpayState) (signer : SignerModel)
    (submit : Transaction → Except ASError StatusRes) (nonce : String)
    (symbol receiver : String) (amount : Nat) (data : String)
    (h : lookupAL st.symbol_to_tag (toLowercase symbol) = none) :
    transfer st signer submit nonce symbol receiver amount data =
      (.panicked "index out of bounds: key not found in symbol_to_tag", []) := by
  unfold transfer
  rw [h]

/-- Witness for `transfer_unknown_symbol_panics`: the symbol `doge` is not in
the sample registry and the call panics. -/
theorem transfer_unknown_symbol_panics_witness :
    lookupAL stSample.symbol_to_tag (toLowercase "doge") = none ∧
    transfer stSample signerOk submitOk "1" "doge" "RCV" 5 "d" =
      (.panicked "index out of bounds: key not found in symbol_to_tag", []) :=
  ⟨by decide, transfer_unknown_symbol_panics stSample signerOk submitOk "1"
    "doge" "RCV" 5 "d" (by decide)⟩

/-- C10: whenever the fee string of a successful bundler submission does not
parse as `u64`, `send_and_pay` panics at `fee.parse().unwrap()` instead of
returning a typed error, with no settlement transaction submitted. -/
theorem send_and_pay_fee_parse_panic (order : ItemSubmissionRes)
    (st : EverpayState) (signer : SignerModel)
    (submit : Transaction → Except ASError StatusRes) (nonce : String)
    (h : parseU64 order.fee = none) :
    send_and_pay (.ok order) st signer submit nonce =
      (.panicked "called unwrap on an Err value: ParseIntError", []) := by
  simp only [send_and_pay, h]

/-- Witness for `send_and_pay_fee_parse_panic`: the fractional fee `12.5`
does not parse and the call panics. -/
theorem send_and_pay_fee_parse_panic_witness :
    parseU64 orderBadFee.fee = none ∧
    send_and_pay (.ok orderBadFee) stSample signerOk submitOk "1" =
      (.panicked "called unwrap on an Err value: ParseIntError", []) :=
  ⟨by decide, send_and_pay_fee_parse_panic orderBadFee stSample signerOk
    submitOk "1" (by decide)⟩

/-- C6: a failed registry refresh returns the fetch error and leaves all
three registry components (tag-to-descriptor map, symbol-to-tag index, fee
recipient) exactly as they were, while a successful refresh replaces all
three wholesale with values built from the fresh response. -/
theorem update_info_failure_preserves_state (st : EverpayState) (e : ASError)
    (ti : TokenInfo) :
    (update_info st (.error e)).1 = .error e ∧
    (update_info st (.error e)).2.tokens = st.tokens ∧
    (update_info st (.error e)).2.symbol_to_tag = st.symbol_to_tag ∧
    (update_info st (.error e)).2.fee_recipient = st.fee_recipient ∧
    (update_info st (.ok ti)).2 =
      { tokens := (buildMaps ti.token_list).1,
        symbol_to_tag := (buildMaps ti.token_list).2,
        fee_recipient := ti.fee_recipient } := by
  refine ⟨rfl, rfl, rfl, rfl, rfl⟩

/-- C9: `submit_item` posts the raw bytes as an octet stream and attaches
`X-API-KEY` exactly when the key is non-empty, and with a non-empty currency
the URL is the base followed by `bundle/tx/<currency>`; but with an empty
currency the URL is the bare relative string `bundle/tx`, missing the base
URL entirely. -/
theorem submit_item_request_urls :
    submit_item_request "https://arseed.web3infra.dev/" [0] "usdc" "key" =
      { method := "POST",
        url := "https://arseed.web3infra.dev/bundle/tx/usdc",
        headers := [("Content-Type", "application/octet-stream"), ("X-API-KEY", "key")],
        body := [0] } ∧
    (submit_item_request "https://arseed.web3infra.dev/" [0] "usdc" "").headers =
      [("Content-Type", "application/octet-stream")] ∧
    (submit_item_request "https://arseed.web3infra.dev/" [0] "" "key").url =
      "bundle/tx" ∧
    (submit_item_request "https://arseed.web3infra.dev/" [0] "" "key").url ≠
      "https://arseed.web3infra.dev/" ++ "bundle/tx" := by
  refine ⟨rfl, rfl, rfl, by decide⟩

/-- C5: when the bundler submission has succeeded and the settlement
transfer fails with an error (rather than panicking), `send_and_pay` returns
that very error value, with exactly the submissions the single transfer
attempt made — no retry, no wrapping, no rollback call of any kind. -/
theorem send_and_pay_propagates_settlement_error (order : ItemSubmissionRes)
    (st : EverpayState) (signer : SignerModel)
    (submit : Transaction → Except ASError StatusRes) (nonce : String)
    (fee_int : Nat) (e : ASError) (txs : List Transaction)
    (hfee : parseU64 order.fee = some fee_int)
    (ht : transfer st signer submit nonce order.currency order.bundler fee_int
      (payTxDataJson order.item_id) = (.err e, txs)) :
    send_and_pay (.ok order) st signer submit nonce = (.err e, txs) := by
  simp only [send_and_pay, hfee, ht]

/-- Witness for `send_and_pay_propagates_settlement_error`: with a failing
settlement submission the API error comes back unchanged. -/
theorem send_and_pay_propagates_settlement_error_witness :
    parseU64 orderSample.fee = some 1000 ∧
    transfer stSample signerOk submitErr "1" orderSample.currency
      orderSample.bundler 1000 (payTxDataJson orderSample.item_id) =
      (.err (ASError.APIError "tx verification failed"),
        (transfer stSample signerOk submitErr "1" orderSample.currency
          orderSample.bundler 1000 (payTxDataJson orderSample.item_id)).2) ∧
    send_and_pay (.ok orderSample) stSample signerOk submitErr "1" =
      (.err (ASError.APIError "tx verification failed"),
        (transfer stSample signerOk submitErr "1" orderSample.currency
          orderSample.bundler 1000 (payTxDataJson orderSample.item_id)).2) :=
  ⟨by decide, by decide,
    send_and_pay_propagates_settlement_error orderSample stSample signerOk
      submitErr "1" 1000 (ASError.APIError "tx verification failed")
      ((transfer stSample signerOk submitErr "1" orderSample.currency
        orderSample.bundler 1000 (payTxDataJson orderSample.item_id)).2)
      (by decide) (by decide)⟩

/-- Every endpoint's non-OK branch: decode the standard envelope and wrap its
`error` field in `ASError::APIError`. -/
theorem handleResponse_non_ok {α : Type} (res : ResponseModel α)
    (hne : res.status ≠ 200) (env : APIErrorRes)
    (henv : res.errorEnvelope = .ok env) :
    handleResponse res = .error (ASError.APIError env.error) := by
  unfold handleResponse
  rw [if_neg hne, henv]

/-- C8: for every endpoint of both clients, a non-OK HTTP status makes the
operation fail with an `APIError` whose message is exactly the `error` field
decoded from the standard `{error: string}` envelope, regardless of what the
payload decoding would have produced. -/
theorem non_ok_status_yields_api_error (status : Nat) (env : APIErrorRes)
    (hne : status ≠ 200)
    (p1 : Except String BundlerRes) (p2 : Except String ItemSubmissionRes)
    (p3 : Except String SubmitNativeRes) (p4 : Except String FeeRes)
    (p5 : Except String (List OrderRes)) (p6 : Except String ItemMetaRes)
    (p7 : Except String (List String)) (p8 : Except String TokenInfo)
    (p9 : Except String Balances) (p10 : Except String StatusRes) :
    get_bundler_handle ⟨status, p1, .ok env⟩ = .error (ASError.APIError env.error) ∧
    submit_item_handle ⟨status, p2, .ok env⟩ = .error (ASError.APIError env.error) ∧
    submit_native_data_handle ⟨status, p3, .ok env⟩ = .error (ASError.APIError env.error) ∧
    get_bundle_fee_handle ⟨status, p4, .ok env⟩ = .error (ASError.APIError env.error) ∧
    get_bundler_orders_handle ⟨status, p5, .ok env⟩ = .error (ASError.APIError env.error) ∧
    get_item_meta_handle ⟨status, p6, .ok env⟩ = .error (ASError.APIError env.error) ∧
    get_items_by_ar_id_handle ⟨status, p7, .ok env⟩ = .error (ASError.APIError env.error) ∧
    info_handle ⟨status, p8, .ok env⟩ = .error (ASError.APIError env.error) ∧
    balances_handle ⟨status, p9, .ok env⟩ = .error (ASError.APIError env.error) ∧
    submit_tx_handle ⟨status, p10, .ok env⟩ = .error (ASError.APIError env.error) :=
  ⟨handleResponse_non_ok _ hne env rfl, handleResponse_non_ok _ hne env rfl,
   handleResponse_non_ok _ hne env rfl, handleResponse_non_ok _ hne env rfl,
   handleResponse_non_ok _ hne env rfl, handleResponse_non_ok _ hne env rfl,
   handleResponse_non_ok _ hne env rfl, handleResponse_non_ok _ hne env rfl,
   handleResponse_non_ok _ hne env rfl, handleResponse_non_ok _ hne env rfl⟩

/-- Witness for `non_ok_status_yields_api_error` at status 404 with the
message `not found`. -/
theorem non_ok_status_yields_api_error_witness :
    (404 : Nat) ≠ 200 ∧
    submit_item_handle ⟨404, .error "d", .ok ⟨"not found"⟩⟩ =
      .error (ASError.APIError "not found") ∧
    submit_tx_handle ⟨404, .error "d", .ok ⟨"not found"⟩⟩ =
      .error (ASError.APIError "not found") :=
  ⟨by decide,
   (non_ok_status_yields_api_error 404 ⟨"not found"⟩ (by decide)
     (.error "d") (.error "d") (.error "d") (.error "d") (.error "d")
     (.error "d") (.error "d") (.error "d") (.error "d") (.error "d")).2.1,
   (non_ok_status_yields_api_error 404 ⟨"not found"⟩ (by decide)
     (.error "d") (.error "d") (.error "d") (.error "d") (.error "d")
     (.error "d") (.error "d") (.error "d") (.error "d") (.error "d")).2.2.2.2.2.2.2.2.2⟩

/-- C3 (amended): both settlement transaction building paths compute the
canonical message of the record with empty `sig`, invoke the signer on it,
fill `sig` with the signature — and then submit the signed record to the
settlement service within the same call, returning the service's status
result (not the signed record); submission is not left to the caller. -/
theorem send_paths_sign_and_submit (signer : SignerModel)
    (submit : Transaction → Except ASError StatusRes) (nonce : String)
    (token_symbol action : String) (fee : Nat)
    (fee_recipient token_id chain_type chain_id receiver : String)
    (amount : Nat) (data : String)
    (st : EverpayState) (token_tag : String) (token_info : TokenList)
    (wallet s1 s2 : String)
    (hw : signer.wallet_address = .ok wallet)
    (h1 : signer.sign (raw_tx wallet nonce token_symbol action fee
      fee_recipient token_id chain_type chain_id receiver amount data).sig_msg = .ok s1)
    (hlk : lookupAL st.tokens token_tag = some token_info)
    (h2 : signer.sign (transfer_tx st token_info wallet nonce receiver amount
      data).sig_msg = .ok s2) :
    send_action_raw signer submit nonce token_symbol action fee fee_recipient
      token_id chain_type chain_id receiver amount data =
      (submit { raw_tx wallet nonce token_symbol action fee fee_recipient
          token_id chain_type chain_id receiver amount data with sig := s1 },
       [{ raw_tx wallet nonce token_symbol action fee fee_recipient token_id
          chain_type chain_id receiver amount data with sig := s1 }]) ∧
    send_transfer st signer submit nonce token_tag receiver amount data =
      (submit { transfer_tx st token_info wallet nonce receiver amount data
          with sig := s2 },
       [{ transfer_tx st token_info wallet nonce receiver amount data
          with sig := s2 }]) := by
  constructor
  · simp only [send_action_raw, hw, h1]
  · simp only [send_transfer, hlk, hw, h2]

/-- Witness for `send_paths_sign_and_submit` on concrete inputs. -/
theorem send_paths_sign_and_submit_witness :
    send_action_raw signerOk submitOk "1" "AR" "transfer" 0 "FR" "TID" "ct"
      "cid" "RCV" 5 "d" =
      (.ok { status := "ok" },
       [{ rawTxW with sig := "sig:" ++ rawTxW.sig_msg }]) ∧
    send_transfer stSample signerOk submitOk "1" "usdc_tag" "RCV" 5 "d" =
      (.ok { status := "ok" },
       [{ transferTxW with sig := "sig:" ++ transferTxW.sig_msg }]) := by
  have h := send_paths_sign_and_submit signerOk submitOk "1" "AR" "transfer" 0
    "FR" "TID" "ct" "cid" "RCV" 5 "d" stSample "usdc_tag" tokenUSDC "WALLET"
    ("sig:" ++ rawTxW.sig_msg) ("sig:" ++ transferTxW.sig_msg)
    rfl rfl (by decide) rfl
  exact h

/-- C3 (counterexample): the claim that `send_action_raw` and `send_transfer`
return the signed record without submitting it is false — at a concrete
input both paths submit a transaction during the call (the recorded
submission list is non-empty) and return the settlement service's status
result, not the record. -/
theorem send_paths_do_submit_counterexample :
    (send_action_raw signerOk submitOk "1" "AR" "transfer" 0 "FR" "TID" "ct"
      "cid" "RCV" 5 "d").2 ≠ [] ∧
    (send_transfer stSample signerOk submitOk "1" "usdc_tag" "RCV" 5 "d").2 ≠ [] ∧
    (send_action_raw signerOk submitOk "1" "AR" "transfer" 0 "FR" "TID" "ct"
      "cid" "RCV" 5 "d").1 = .ok { status := "ok" } ∧
    (send_transfer stSample signerOk submitOk "1" "usdc_tag" "RCV" 5 "d").1 =
      .ok { status := "ok" } := by
  refine ⟨by decide, by decide, rfl, rfl⟩

/-- Inversion of a successful `send_transfer`: the token was resolved, the
wallet address derived, the canonical message signed, and exactly the signed
record was submitted, yielding the submission's status. -/
theorem send_transfer_ok_inv (st : EverpayState) (signer : SignerModel)
    (submit : Transaction → Except ASError StatusRes)
    (nonce token_tag receiver : String) (amount : Nat) (data : String)
    (status : StatusRes) (txs : List Transaction)
    (h : send_transfer st signer submit nonce token_tag receiver amount data =
      (.ok status, txs)) :
    ∃ token_info wallet s,
      lookupAL st.tokens token_tag = some token_info ∧
      signer.wallet_address = .ok wallet ∧
      signer.sign (transfer_tx st token_info wallet nonce receiver amount
        data).sig_msg = .ok s ∧
      txs = [{ transfer_tx st token_info wallet nonce receiver amount data
        with sig := s }] ∧
      submit { transfer_tx st token_info wallet nonce receiver amount data
        with sig := s } = .ok status := by
  unfold send_transfer at h
  cases hlk : lookupAL st.tokens token_tag with
  | none => rw [hlk] at h; simp at h
  | some token_info =>
    rw [hlk] at h
    cases hw : signer.wallet_address with
    | error e => rw [hw] at h; simp at h
    | ok wallet =>
      rw [hw] at h
      simp only at h
      cases hs : signer.sign (transfer_tx st token_info wallet nonce receiver
          amount data).sig_msg with
      | error e => rw [hs] at h; simp at h
      | ok s =>
        rw [hs] at h
        simp only [Prod.mk.injEq] at h
        exact ⟨token_info, wallet, s, rfl, rfl, hs, h.2.symm, h.1⟩

/-- C4: whenever `send_and_pay` succeeds after a bundler submission returning
item id `X`, fee `F`, currency `C` and bundler `B`, the single settlement
transaction it submitted is a `transfer` to `B`, for the amount parsed from
`F`, for the token resolved from `C` in the registry, carrying the JSON
payment payload referencing `X` — and the returned value is `X`. -/
theorem send_and_pay_pays_bundler (order : ItemSubmissionRes)
    (st : EverpayState) (signer : SignerModel)
    (submit : Transaction → Except ASError StatusRes) (nonce : String)
    (r : String) (txs : List Transaction)
    (h : send_and_pay (.ok order) st signer submit nonce = (.ok r, txs)) :
    r = order.item_id ∧
    ∃ fee_int tag token_info tx status,
      parseU64 order.fee = some fee_int ∧
      lookupAL st.symbol_to_tag (toLowercase order.currency) = some tag ∧
      lookupAL st.tokens tag = some token_info ∧
      txs = [tx] ∧
      tx.«to» = order.bundler ∧
      tx.amount = toString fee_int ∧
      tx.data = payTxDataJson order.item_id ∧
      tx.action = TX_ACTION_TRANSFER ∧
      tx.token_symbol = token_info.symbol ∧
      tx.token_id = token_info.id ∧
      tx.fee = token_info.transfer_fee ∧
      tx.fee_recipient = st.fee_recipient ∧
      submit tx = .ok status := by
  simp only [send_and_pay] at h
  cases hp : parseU64 order.fee with
  | none => rw [hp] at h; simp at h
  | some fee_int =>
    rw [hp] at h
    cases hsym : lookupAL st.symbol_to_tag (toLowercase order.currency) with
    | none =>
      simp only [transfer, hsym] at h
      simp at h
    | some tag =>
      cases hq : send_transfer st signer submit nonce tag order.bundler
          fee_int (payTxDataJson order.item_id) with
      | mk q1 q2 =>
        simp only [transfer, hsym, hq] at h
        cases q1 with
        | error e => simp [liftE] at h
        | ok status =>
          simp only [liftE, Prod.mk.injEq, PanickyResult.ok.injEq] at h
          obtain ⟨h1, h2⟩ := h
          obtain ⟨token_info, wallet, s, hlk, hw, hs, htxs, hsub⟩ :=
            send_transfer_ok_inv st signer submit nonce tag order.bundler
              fee_int (payTxDataJson order.item_id) status q2 hq
          subst h2
          refine ⟨h1.symm, fee_int, tag, token_info,
            { transfer_tx st token_info wallet nonce order.bundler fee_int
              (payTxDataJson order.item_id) with sig := s }, status,
            rfl, rfl, hlk, htxs, rfl, rfl, rfl, rfl, rfl, rfl, rfl, rfl, hsub⟩

/-- Witness for `send_and_pay_pays_bundler` on the sample order/registry. -/
theorem send_and_pay_pays_bundler_witness :
    "X" = orderSample.item_id ∧
    ∃ fee_int tag token_info tx status,
      parseU64 orderSample.fee = some fee_int ∧
      lookupAL stSample.symbol_to_tag (toLowercase orderSample.currency) =
        some tag ∧
      lookupAL stSample.tokens tag = some token_info ∧
      (send_and_pay (.ok orderSample) stSample signerOk submitOk "1").2 = [tx] ∧
      tx.«to» = orderSample.bundler ∧
      tx.amount = toString fee_int ∧
      tx.data = payTxDataJson orderSample.item_id ∧
      tx.action = TX_ACTION_TRANSFER ∧
      tx.token_symbol = token_info.symbol ∧
      tx.token_id = token_info.id ∧
      tx.fee = token_info.transfer_fee ∧
      tx.fee_recipient = stSample.fee_recipient ∧
      submitOk tx = .ok status :=
  send_and_pay_pays_bundler orderSample stSample signerOk submitOk "1" "X"
    ((send_and_pay (.ok orderSample) stSample signerOk submitOk "1").2)
    (by decide)

/-- Splitting a list at its first newline is unambiguous: if two
concatenations around an explicit newline agree and neither prefix contains a
newline, prefixes and suffixes agree. -/
theorem split_nl {a1 a2 b1 b2 : List Char} (h1 : '\n' ∉ a1) (h2 : '\n' ∉ a2)
    (h : a1 ++ '\n' :: b1 = a2 ++ '\n' :: b2) : a1 = a2 ∧ b1 = b2 := by
  induction a1 generalizing a2 with
  | nil =>
    cases a2 with
    | nil => simpa using h
    | cons c cs =>
      simp only [List.nil_append, List.cons_append, List.cons.injEq] at h
      exact absurd (h.1 ▸ List.mem_cons_self c cs) h2
  | cons c cs ih =>
    cases a2 with
    | nil =>
      simp only [List.cons_append, List.nil_append, List.cons.injEq] at h
      exact absurd (h.1 ▸ List.mem_cons_self c cs) h1
    | cons d ds =>
      simp only [List.cons_append, List.cons.injEq] at h
      obtain ⟨rfl, h'⟩ := h
      have h1' : '\n' ∉ cs := fun hm => h1 (List.mem_cons_of_mem _ hm)
      have h2' : '\n' ∉ ds := fun hm => h2 (List.mem_cons_of_mem _ hm)
      obtain ⟨he, hb⟩ := ih h1' h2' h'
      exact ⟨by rw [he], hb⟩

/-- The character data of the canonical message, reshaped so that each
field is framed by its label and an explicit newline separator. -/
theorem sig_msg_data (t : Transaction) : (Transaction.sig_msg t).data =
    "tokenSymbol:".data ++ (t.token_symbol.data ++ '\n' ::
    ("action:".data ++ (t.action.data ++ '\n' ::
    ("from:".data ++ (t.«from».data ++ '\n' ::
    ("to:".data ++ (t.«to».data ++ '\n' ::
    ("amount:".data ++ (t.amount.data ++ '\n' ::
    ("fee:".data ++ (t.fee.data ++ '\n' ::
    ("feeRecipient:".data ++ (t.fee_recipient.data ++ '\n' ::
    ("nonce:".data ++ (t.nonce.data ++ '\n' ::
    ("tokenID:".data ++ (t.token_id.data ++ '\n' ::
    ("chainType:".data ++ (t.chain_type.data ++ '\n' ::
    ("chainID:".data ++ (t.chain_id.data ++ '\n' ::
    ("data:".data ++ (t.data.data ++ '\n' ::
    ("version:".data ++ t.version.data)))))))))))))))))))))))) := by
  have e1 : ("\naction:" : String).data = '\n' :: "action:".data := rfl
  have e2 : ("\nfrom:" : String).data = '\n' :: "from:".data := rfl
  have e3 : ("\nto:" : String).data = '\n' :: "to:".data := rfl
  have e4 : ("\namount:" : String).data = '\n' :: "amount:".data := rfl
  have e5 : ("\nfee:" : String).data = '\n' :: "fee:".data := rfl
  have e6 : ("\nfeeRecipient:" : String).data = '\n' :: "feeRecipient:".data := rfl
  have e7 : ("\nnonce:" : String).data = '\n' :: "nonce:".data := rfl
  have e8 : ("\ntokenID:" : String).data = '\n' :: "tokenID:".data := rfl
  have e9 : ("\nchainType:" : String).data = '\n' :: "chainType:".data := rfl
  have e10 : ("\nchainID:" : String).data = '\n' :: "chainID:".data := rfl
  have e11 : ("\ndata:" : String).data = '\n' :: "data:".data := rfl
  have e12 : ("\nversion:" : String).data = '\n' :: "version:".data := rfl
  simp only [Transaction.sig_msg, String.data_append, e1, e2, e3, e4, e5, e6,
    e7, e8, e9, e10, e11, e12, List.append_assoc, List.cons_append]

/-- C1 (amended): the canonical message is a pure deterministic function of
the thirteen non-signature fields — equal fields always give equal messages —
and for transactions whose fields contain no newline character the messages
are equal exactly when all thirteen labelled fields agree. (Without the
newline restriction distinct field vectors can collide, see the
counterexample.) -/
theorem sig_msg_sensitivity_newline_free (t1 t2 : Transaction)
    (hn1 : nlFreeTx t1) (hn2 : nlFreeTx t2) :
    Transaction.sig_msg t1 = Transaction.sig_msg t2 ↔ sameSigFields t1 t2 := by
  constructor
  · intro h
    have hd := congrArg String.data h
    rw [sig_msg_data, sig_msg_data] at hd
    obtain ⟨n1, n2, n3, n4, n5, n6, n7, n8, n9, n10, n11, n12, n13⟩ := hn1
    obtain ⟨m1, m2, m3, m4, m5, m6, m7, m8, m9, m10, m11, m12, m13⟩ := hn2
    have hd := List.append_cancel_left hd
    obtain ⟨f1, hd⟩ := split_nl n1 m1 hd
    have hd := List.append_cancel_left hd
    obtain ⟨f2, hd⟩ := split_nl n2 m2 hd
    have hd := List.append_cancel_left hd
    obtain ⟨f3, hd⟩ := split_nl n3 m3 hd
    have hd := List.append_cancel_left hd
    obtain ⟨f4, hd⟩ := split_nl n4 m4 hd
    have hd := List.append_cancel_left hd
    obtain ⟨f5, hd⟩ := split_nl n5 m5 hd
    have hd := List.append_cancel_left hd
    obtain ⟨f6, hd⟩ := split_nl n6 m6 hd
    have hd := List.append_cancel_left hd
    obtain ⟨f7, hd⟩ := split_nl n7 m7 hd
    have hd := List.append_cancel_left hd
    obtain ⟨f8, hd⟩ := split_nl n8 m8 hd
    have hd := List.append_cancel_left hd
    obtain ⟨f9, hd⟩ := split_nl n9 m9 hd
    have hd := List.append_cancel_left hd
    obtain ⟨f10, hd⟩ := split_nl n10 m10 hd
    have hd := List.append_cancel_left hd
    obtain ⟨f11, hd⟩ := split_nl n11 m11 hd
    have hd := List.append_cancel_left hd
    obtain ⟨f12, hd⟩ := split_nl n12 m12 hd
    have f13 := List.append_cancel_left hd
    exact ⟨String.ext f1, String.ext f2, String.ext f3, String.ext f4,
      String.ext f5, String.ext f6, String.ext f7, String.ext f8,
      String.ext f9, String.ext f10, String.ext f11, String.ext f12,
      String.ext f13⟩
  · intro hs
    obtain ⟨f1, f2, f3, f4, f5, f6, f7, f8, f9, f10, f11, f12, f13⟩ := hs
    simp only [Transaction.sig_msg, f1, f2, f3, f4, f5, f6, f7, f8, f9, f10,
      f11, f12, f13]

/-- Witness for `sig_msg_sensitivity_newline_free` on the sample
transaction. -/
theorem sig_msg_sensitivity_newline_free_witness :
    nlFreeTx txSample ∧
    (Transaction.sig_msg txSample = Transaction.sig_msg txSample ↔
      sameSigFields txSample txSample) :=
  ⟨by unfold nlFreeTx nlFree; decide,
   sig_msg_sensitivity_newline_free txSample txSample
     (by unfold nlFreeTx nlFree; decide) (by unfold nlFreeTx nlFree; decide)⟩

/-- C1 (counterexample): sensitivity fails without a newline restriction —
`txColA` and `txColB` differ in the labelled fields `tokenSymbol` and
`action` yet have identical canonical messages, because a field embedding a
newline and a label shifts the line boundaries. -/
theorem sig_msg_collision_counterexample :
    txColA.token_symbol ≠ txColB.token_symbol ∧
    txColA.action ≠ txColB.action ∧
    Transaction.sig_msg txColA = Transaction.sig_msg txColB := by
  refine ⟨by decide, by decide, by decide⟩

/-- ASCII case mapping: lowering an uppered character equals lowering it
directly. -/
theorem char_toLower_toUpper (c : Char) : c.toUpper.toLower = c.toLower := by
  by_cases hu : c.toNat ≥ 97 ∧ c.toNat ≤ 122
  · have h1 : c.toUpper = Char.ofNat (c.toNat - 32) := by
      simp only [Char.toUpper]
      rw [if_pos hu]
    have hv : Nat.isValidChar (c.toNat - 32) := Or.inl (by omega)
    have ht : (Char.ofNat (c.toNat - 32)).toNat = c.toNat - 32 := by
      simp only [Char.ofNat, dif_pos hv]
      rfl
    have h2 : c.toLower = c := by
      simp only [Char.toLower]
      rw [if_neg (by omega)]
    rw [h1, h2]
    simp only [Char.toLower]
    rw [ht, if_pos (by omega : Char.toNat c - 32 ≥ 65 ∧ Char.toNat c - 32 ≤ 90)]
    have h3 : c.toNat - 32 + 32 = c.toNat := by omega
    rw [h3, Char.ofNat_toNat]
  · have h1 : c.toUpper = c := by
      simp only [Char.toUpper]
      rw [if_neg hu]
    rw [h1]

/-- ASCII case mapping: lowering is idempotent. -/
theorem char_toLower_toLower (c : Char) : c.toLower.toLower = c.toLower := by
  by_cases hl : c.toNat ≥ 65 ∧ c.toNat ≤ 90
  · have h1 : c.toLower = Char.ofNat (c.toNat + 32) := by
      simp only [Char.toLower]
      rw [if_pos hl]
    have hv : Nat.isValidChar (c.toNat + 32) := Or.inl (by omega)
    have ht : (Char.ofNat (c.toNat + 32)).toNat = c.toNat + 32 := by
      simp only [Char.ofNat, dif_pos hv]
      rfl
    rw [h1]
    simp only [Char.toLower]
    rw [ht, if_neg (by omega)]
  · have h1 : c.toLower = c := by
      simp only [Char.toLower]
      rw [if_neg hl]
    rw [h1, h1]

/-- Lowercasing an uppercased string gives its lowercased form. -/
theorem toLowercase_toUppercase (s : String) :
    toLowercase (toUppercase s) = toLowercase s := by
  unfold toLowercase toUppercase
  simp only [List.map_map]
  have h : Char.toLower ∘ Char.toUpper = Char.toLower := funext char_toLower_toUpper
  rw [h]

/-- Lowercasing is idempotent. -/
theorem toLowercase_toLowercase (s : String) :
    toLowercase (toLowercase s) = toLowercase s := by
  unfold toLowercase
  simp only [List.map_map]
  have h : Char.toLower ∘ Char.toLower = Char.toLower := funext char_toLower_toLower
  rw [h]

/-- Lookup after an append checks the first list first. -/
theorem lookupAL_append {α : Type} (m m' : List (String × α)) (k : String) :
    lookupAL (m ++ m') k =
      match lookupAL m k with
      | some v => some v
      | none => lookupAL m' k := by
  induction m with
  | nil => rfl
  | cons p rest ih =>
    rcases p with ⟨a, b⟩
    by_cases hak : a = k
    · simp [lookupAL, hak]
    · simp [lookupAL, hak, ih]

/-- Inserting a key that is absent appends the binding at the end. -/
theorem insertAL_fresh {α : Type} (m : List (String × α)) (k : String) (v : α)
    (h : lookupAL m k = none) : insertAL m k v = m ++ [(k, v)] := by
  induction m with
  | nil => rfl
  | cons p rest ih =>
    rcases p with ⟨a, b⟩
    by_cases hak : a = k
    · simp [lookupAL, hak] at h
    · simp only [lookupAL, if_neg hak] at h
      simp [insertAL, hak, ih h]

/-- Looking up `f t` in a map built by pairing `f u` with `g u`, when the
keys `f u` are distinct, returns `g t`. -/
theorem lookupAL_map {α : Type} (f : TokenList → String) (g : TokenList → α)
    (ts : List TokenList) (hnd : (ts.map f).Nodup) (t : TokenList)
    (ht : t ∈ ts) :
    lookupAL (ts.map (fun u => (f u, g u))) (f t) = some (g t) := by
  induction ts with
  | nil => cases ht
  | cons u rest ih =>
    simp only [List.map_cons, List.nodup_cons] at hnd
    rcases List.mem_cons.mp ht with rfl | hmem
    · simp [lookupAL]
    · have hne : f u ≠ f t := by
        intro hEq
        exact hnd.1 (by rw [hEq]; exact List.mem_map.mpr ⟨t, hmem, rfl⟩)
      simp only [List.map_cons, lookupAL, if_neg hne]
      exact ih hnd.2 hmem

/-- The `update_info` build loop, with distinct tags and distinct lowercased
symbols and fresh accumulators, produces exactly the paired lists. -/
theorem buildMaps_loop_eq (ts : List TokenList)
    (m1 : List (String × TokenList)) (m2 : List (String × String))
    (h1 : ∀ t ∈ ts, lookupAL m1 t.tag = none)
    (h2 : ∀ t ∈ ts, lookupAL m2 (toLowercase t.symbol) = none)
    (hdt : (ts.map (fun t => t.tag)).Nodup)
    (hds : (ts.map (fun t => toLowercase t.symbol)).Nodup) :
    ts.foldl (fun acc t =>
        (insertAL acc.1 t.tag t, insertAL acc.2 (toLowercase t.symbol) t.tag))
      (m1, m2) =
      (m1 ++ ts.map (fun t => (t.tag, t)),
       m2 ++ ts.map (fun t => (toLowercase t.symbol, t.tag))) := by
  induction ts generalizing m1 m2 with
  | nil => simp
  | cons t rest ih =>
    simp only [List.foldl_cons]
    rw [insertAL_fresh m1 t.tag t (h1 t (List.mem_cons_self t rest)),
        insertAL_fresh m2 (toLowercase t.symbol) t.tag
          (h2 t (List.mem_cons_self t rest))]
    have hdt' := (List.nodup_cons.mp hdt).2
    have hds' := (List.nodup_cons.mp hds).2
    have h1' : ∀ u ∈ rest, lookupAL (m1 ++ [(t.tag, t)]) u.tag = none := by
      intro u hu
      rw [lookupAL_append, h1 u (List.mem_cons_of_mem t hu)]
      have hne : t.tag ≠ u.tag := by
        intro hEq
        apply (List.nodup_cons.mp hdt).1
        show t.tag ∈ List.map (fun t => t.tag) rest
        rw [hEq]
        exact List.mem_map.mpr ⟨u, hu, rfl⟩
      simp [lookupAL, hne]
    have h2' : ∀ u ∈ rest,
        lookupAL (m2 ++ [(toLowercase t.symbol, t.tag)])
          (toLowercase u.symbol) = none := by
      intro u hu
      rw [lookupAL_append, h2 u (List.mem_cons_of_mem t hu)]
      have hne : toLowercase t.symbol ≠ toLowercase u.symbol := by
        intro hEq
        apply (List.nodup_cons.mp hds).1
        show toLowercase t.symbol ∈ List.map (fun t => toLowercase t.symbol) rest
        rw [hEq]
        exact List.mem_map.mpr ⟨u, hu, rfl⟩
      simp [lookupAL, hne]
    rw [ih (m1 ++ [(t.tag, t)]) (m2 ++ [(toLowercase t.symbol, t.tag)])
      h1' h2' hdt' hds']
    simp

/-- With distinct tags and distinct lowercased symbols, `buildMaps` is the
plain pairing of the token list. -/
theorem buildMaps_eq (ts : List TokenList)
    (hdt : (ts.map (fun t => t.tag)).Nodup)
    (hds : (ts.map (fun t => toLowercase t.symbol)).Nodup) :
    buildMaps ts = (ts.map (fun t => (t.tag, t)),
      ts.map (fun t => (toLowercase t.symbol, t.tag))) := by
  unfold buildMaps
  rw [buildMaps_loop_eq ts [] [] (fun _ _ => rfl) (fun _ _ => rfl) hdt hds]
  simp

/-- Filtering the symbol-to-tag pairs on a tag counts the tokens bearing
that tag. -/
theorem length_filter_map (ts : List TokenList) (tag0 : String) :
    ((ts.map (fun u => (toLowercase u.symbol, u.tag))).filter
      (fun p => p.2 == tag0)).length =
    (ts.filter (fun u => u.tag == tag0)).length := by
  induction ts with
  | nil => rfl
  | cons u rest ih =>
    simp only [List.map_cons, List.filter_cons]
    cases h : u.tag == tag0 <;> simp [h, ih]

/-- Under distinct tags, exactly one token of the list bears the tag of a
member. -/
theorem count_unique (ts : List TokenList)
    (hdt : (ts.map (fun t => t.tag)).Nodup) (t : TokenList) (ht : t ∈ ts) :
    (ts.filter (fun u => u.tag == t.tag)).length = 1 := by
  induction ts with
  | nil => cases ht
  | cons u rest ih =>
    simp only [List.map_cons, List.nodup_cons] at hdt
    rcases List.mem_cons.mp ht with rfl | hmem
    · have hrest : rest.filter (fun u => u.tag == t.tag) = [] := by
        rw [List.filter_eq_nil_iff]
        intro v hv hb
        apply hdt.1
        have hvt : v.tag = t.tag := by simpa using hb
        rw [← hvt]
        exact List.mem_map.mpr ⟨v, hv, rfl⟩
      simp [List.filter_cons, hrest]
    · have hne : (u.tag == t.tag) = false := by
        rw [beq_eq_false_iff_ne]
        intro hEq
        apply hdt.1
        rw [hEq]
        exact List.mem_map.mpr ⟨t, hmem, rfl⟩
      simp only [List.filter_cons, hne, Bool.false_eq_true, if_false]
      exact ih hdt.2 hmem

/-- C7 (amended): in a registry refreshed from a fetched token list, symbol
resolution is case-insensitive for ASCII symbol strings (the domain on which
the embedded case mapping coincides with Rust's) — such a symbol, its
uppercased form and its lowercased form resolve identically, because every
lookup goes through the lowercased key; and when the fetched list has
pairwise-distinct tags and pairwise-distinct lowercased symbols, resolving a
listed descriptor's symbol yields exactly that descriptor — in any casing
when the symbol is ASCII — and each tag has exactly one entry in the
symbol-to-tag index. (Non-ASCII symbols get no casing guarantee: Rust
uppercases `ß` to `SS`, whose lowercased form is a different key. With
colliding lowercased symbols or duplicated tags the per-descriptor part
fails, see the counterexample.) -/
theorem registry_resolution_case_insensitive (st0 : EverpayState)
    (ti : TokenInfo) :
    (∀ s : String, asciiStr s →
      resolve (update_info st0 (.ok ti)).2 s =
        resolve (update_info st0 (.ok ti)).2 (toUppercase s) ∧
      resolve (update_info st0 (.ok ti)).2 s =
        resolve (update_info st0 (.ok ti)).2 (toLowercase s)) ∧
    ((ti.token_list.map (fun t => t.tag)).Nodup →
      (ti.token_list.map (fun t => toLowercase t.symbol)).Nodup →
      ∀ t ∈ ti.token_list,
        resolve (update_info st0 (.ok ti)).2 t.symbol = some t ∧
        (asciiStr t.symbol →
          resolve (update_info st0 (.ok ti)).2 (toUppercase t.symbol) = some t ∧
          resolve (update_info st0 (.ok ti)).2 (toLowercase t.symbol) = some t) ∧
        ((update_info st0 (.ok ti)).2.symbol_to_tag.filter
          (fun p => p.2 == t.tag)).length = 1) := by
  constructor
  · intro s _hascii
    constructor
    · unfold resolve
      rw [toLowercase_toUppercase]
    · unfold resolve
      rw [toLowercase_toLowercase]
  · intro hdt hds t ht
    have hb := buildMaps_eq ti.token_list hdt hds
    have hs2t : (update_info st0 (.ok ti)).2.symbol_to_tag =
        ti.token_list.map (fun t => (toLowercase t.symbol, t.tag)) := by
      simp [update_info, hb]
    have htok : (update_info st0 (.ok ti)).2.tokens =
        ti.token_list.map (fun t => (t.tag, t)) := by
      simp [update_info, hb]
    have h1 : lookupAL ((update_info st0 (.ok ti)).2.symbol_to_tag)
        (toLowercase t.symbol) = some t.tag := by
      rw [hs2t]
      exact lookupAL_map (fun u => toLowercase u.symbol) (fun u => u.tag)
        ti.token_list hds t ht
    have h2 : lookupAL ((update_info st0 (.ok ti)).2.tokens) t.tag = some t := by
      rw [htok]
      exact lookupAL_map (fun u => u.tag) (fun u => u) ti.token_list hdt t ht
    refine ⟨?_, fun _hascii => ⟨?_, ?_⟩, ?_⟩
    · simp only [resolve, h1, h2]
    · simp only [resolve, toLowercase_toUppercase, h1, h2]
    · simp only [resolve, toLowercase_toLowercase, h1, h2]
    · rw [hs2t, length_filter_map]
      exact count_unique ti.token_list hdt t ht

/-- Witness for `registry_resolution_case_insensitive` on the sample
registry, discharging the ASCII and distinctness hypotheses concretely. -/
theorem registry_resolution_case_insensitive_witness :
    (resolve (update_info emptyState (.ok tokenInfoSample)).2 "Ar" =
      resolve (update_info emptyState (.ok tokenInfoSample)).2
        (toUppercase "Ar")) ∧
    resolve (update_info emptyState (.ok tokenInfoSample)).2 tokenAR.symbol =
      some tokenAR ∧
    resolve (update_info emptyState (.ok tokenInfoSample)).2
      (toUppercase tokenAR.symbol) = some tokenAR ∧
    ((update_info emptyState (.ok tokenInfoSample)).2.symbol_to_tag.filter
      (fun p => p.2 == tokenAR.tag)).length = 1 :=
  ⟨((registry_resolution_case_insensitive emptyState tokenInfoSample).1 "Ar"
     (by unfold asciiStr; decide)).1,
   ((registry_resolution_case_insensitive emptyState tokenInfoSample).2
     (by decide) (by decide) tokenAR (by decide)).1,
   (((registry_resolution_case_insensitive emptyState tokenInfoSample).2
     (by decide) (by decide) tokenAR (by decide)).2.1
     (by unfold asciiStr; decide)).1,
   ((registry_resolution_case_insensitive emptyState tokenInfoSample).2
     (by decide) (by decide) tokenAR (by decide)).2.2⟩

/-- C7 (counterexample): with two fetched tokens whose lowercased symbols
collide (`X` and `x`), the later token's index entry overwrites the
earlier's: resolving `tokenUpperX`'s own symbol yields the other descriptor,
and the tag `a_tag` is left with no symbol mapping at all (not exactly
one). -/
theorem registry_symbol_collision_counterexample :
    lookupAL stDup.tokens tokenUpperX.tag = some tokenUpperX ∧
    resolve stDup tokenUpperX.symbol = some tokenLowerX ∧
    tokenLowerX ≠ tokenUpperX ∧
    (stDup.symbol_to_tag.filter (fun p => p.2 == tokenUpperX.tag)).length = 0 := by
  refine ⟨by decide, by decide, by decide, by decide⟩
